import Mathlib

/-!
# Verification of the MCP HTTP proxy message pipeline

A shallow embedding of `src/index.js`: the per-line pipeline that reads a
line-delimited JSON-RPC request from stdin, forwards it as an HTTP POST,
and rewrites the response before emitting it on stdout.

JavaScript values reachable in this program are modelled by `JsonVal`
(results of `JSON.parse`) together with `Option JsonVal` where `none`
stands for the JavaScript value `undefined`.  `JSON.parse` itself is not
reimplemented; it is an oracle parameter `parse : String → Option JsonVal`
(`none` = the parse threw).  JSON numbers are modelled as integers, which
covers every number this program inspects (`error.code === -32601`).
-/

namespace McpProxy

/-- A parsed JSON value, the result of a successful `JSON.parse`. -/
inductive JsonVal where
  | null
  | bool (b : Bool)
  | num (n : Int)
  | str (s : String)
  | arr (elems : List JsonVal)
  | obj (fields : List (String × JsonVal))

/-- JavaScript truthiness of a defined value (`null`, `false`, `0` and the
empty string are falsy; arrays and objects are always truthy). -/
def truthy : JsonVal → Bool
  | .null => false
  | .bool b => b
  | .num n => n != 0
  | .str s => s != ""
  | .arr _ => true
  | .obj _ => true

/-- Truthiness of a possibly-`undefined` value (`undefined` is falsy). -/
def jsTruthy : Option JsonVal → Bool
  | none => false
  | some v => truthy v

/-- Property access `v[key]` on a value already known to be truthy
(hence non-`null`): a field lookup on objects, `undefined` on every
non-object. -/
def jsField (v : JsonVal) (key : String) : Option JsonVal :=
  match v with
  | .obj fields => fields.lookup key
  | _ => none

/-- Property access that can throw: reading a property of `null` raises a
`TypeError` (caught by the handler's `catch` block); on any other value it
behaves like `jsField`.  Used for `response.error`, where `response` may be
the parse of the literal `"null"`. -/
def jsFieldE (v : JsonVal) (key : String) : Except String (Option JsonVal) :=
  match v with
  | .null => .error "Cannot read properties of null"
  | .obj fields => .ok (fields.lookup key)
  | _ => .ok none

/-- Strict equality `v === "<literal>"` against a string literal
(`undefined === s` and `n === s` are false; no coercion under `===`). -/
def jsEqStr (v : Option JsonVal) (s : String) : Bool :=
  match v with
  | some (.str t) => t == s
  | _ => false

/-- Strict equality `v === <integer literal>` against a number literal. -/
def jsEqNum (v : Option JsonVal) (n : Int) : Bool :=
  match v with
  | some (.num m) => m == n
  | _ => false

/-!
## The response translator (`res.on('end')` handler, `src/index.js:70-102`)

`request` below is the result of `JSON.parse(line)` from the `rl.on('line')`
handler: `none` when the parse threw (the variable stayed `undefined`).
-/

/-- `const method = request ? request.method : 'unknown'`
(`src/index.js:74`). -/
def jsMethod (request : Option JsonVal) : Option JsonVal :=
  match request with
  | some r => if truthy r then jsField r "method" else some (.str "unknown")
  | none => some (.str "unknown")

/-- `const requestId = request ? request.id : undefined`
(`src/index.js:75`). -/
def jsRequestId (request : Option JsonVal) : Option JsonVal :=
  match request with
  | some r => if truthy r then jsField r "id" else none
  | none => none

/-- The test `response.error && response.error.code === -32601`, which can
throw when `response` is `null` (propagating to the handler's `catch`). -/
def checkError32601 (response : JsonVal) : Except String Bool :=
  match jsFieldE response "error" with
  | .error m => .error m
  | .ok errField =>
      .ok (jsTruthy errField &&
        match errField with
        | some e => jsEqNum (jsField e "code") (-32601)
        | none => false)

/-- The same test with a thrown `TypeError` counted as `false`; used only in
theorem statements (the pipeline itself keeps the throw, which lands in the
`catch` block and yields a pass-through). -/
def errorIs32601 (response : JsonVal) : Bool :=
  match checkError32601 response with
  | .ok b => b
  | .error _ => false

/-- The substituted success response
`JSON.stringify({ jsonrpc: '2.0', id: requestId, result: { <key>: [] } })`
(`src/index.js:86` and `src/index.js:91`); `JSON.stringify` omits a key whose
value is `undefined`. -/
def emptyResult (requestId : Option JsonVal) (key : String) : JsonVal :=
  .obj ([("jsonrpc", JsonVal.str "2.0")] ++
    (match requestId with
     | none => []
     | some i => [("id", i)]) ++
    [("result", JsonVal.obj [(key, JsonVal.arr [])])])

/-- What the translator decides to do with one response
(spec §3: `Drop` / `Substitute` / `PassThrough`).  Each `return` of the
source handler maps to one constructor; falling out of the `try` block (or
catching an exception inside it) is `passThrough`. -/
inductive TranslationDecision where
  | drop
  | substitute (v : JsonVal)
  | passThrough

/-- One diagnostic line on the operator stream (stderr), by source site:
`droppedNotification` is `src/index.js:79` (the interpolated `${method}`),
`convertedEmpty` is `src/index.js:88` / `src/index.js:93`,
`parseError` is `src/index.js:98`, `httpError` is `src/index.js:106`. -/
inductive StderrLine where
  | droppedNotification (method : Option JsonVal)
  | convertedEmpty (methodName : String)
  | parseError
  | httpError (msg : String)

/-- The decision logic of the `res.on('end')` handler, given the parse
oracle, the parsed request (`undefined` when the input line did not parse)
and the raw response body `data`.  Returns the decision together with the
stderr lines written while deciding. -/
def translateResponse (parse : String → Option JsonVal)
    (request : Option JsonVal) (data : String) :
    TranslationDecision × List StderrLine :=
  match parse data with
  | none => (.passThrough, [.parseError])
  | some response =>
    let method := jsMethod request
    let requestId := jsRequestId request
    match checkError32601 response with
    | .error _ => (.passThrough, [.parseError])
    | .ok is32601 =>
      if is32601 && requestId.isNone then
        (.drop, [.droppedNotification method])
      else if is32601 && jsTruthy request then
        if jsEqStr method "prompts/list" then
          (.substitute (emptyResult requestId "prompts"),
           [.convertedEmpty "prompts/list"])
        else if jsEqStr method "resources/list" then
          (.substitute (emptyResult requestId "resources"),
           [.convertedEmpty "resources/list"])
        else (.passThrough, [])
      else (.passThrough, [])

/-- One line on stdout: `raw s` is `console.log(data)` (the response body
bytes unchanged, `src/index.js:101`); `json v` is `console.log` of
`JSON.stringify v` (`src/index.js:87` and `src/index.js:92`). -/
inductive StdoutLine where
  | raw (s : String)
  | json (v : JsonVal)

/-- What a decision writes to stdout (spec §4.5): nothing for `drop`, the
synthesized response for `substitute`, the raw bytes for `passThrough`. -/
def emitDecision (d : TranslationDecision) (data : String) : List StdoutLine :=
  match d with
  | .drop => []
  | .substitute v => [.json v]
  | .passThrough => [.raw data]

/-- The complete `res.on('end')` handler: stdout lines and stderr lines
produced for one response body. -/
def respondEnd (parse : String → Option JsonVal)
    (request : Option JsonVal) (data : String) :
    List StdoutLine × List StderrLine :=
  let (d, errs) := translateResponse parse request data
  (emitDecision d data, errs)

/-!
## The per-line pipeline (`rl.on('line')` handler, `src/index.js:42-111`)
-/

/-- One outgoing HTTP request as built at `src/index.js:52-61` and sent at
`src/index.js:109-110`: the verb, the two headers the code sets, and the
body written with `req.write(line)`.  (Hostname, port and path come from
the startup URL, fixed for the whole run.) -/
structure HttpPost where
  verb : String
  contentType : String
  contentLength : Nat
  body : String

/-- The blank-line test `if (!line.trim()) return` (`src/index.js:43`):
`line.trim()` is the falsy empty string exactly when every character of
the line is whitespace. -/
def isBlankLine (line : String) : Bool :=
  line.toList.all Char.isWhitespace

/-- `Buffer.byteLength(line)` (UTF-8 byte count) and the rest of the
`options` literal at `src/index.js:56-60`. -/
def mkPost (line : String) : HttpPost :=
  { verb := "POST"
    contentType := "application/json"
    contentLength := line.utf8ByteSize
    body := line }

/-- The environment's answer to one HTTP request: either the complete
response body (`res.on('end')` fires with the accumulated `data`), or a
transport-level failure (`req.on('error')` fires with a message). -/
inductive HttpResult where
  | ok (body : String)
  | err (msg : String)

/-- The `rl.on('line')` handler for one input line: the HTTP requests
issued, the stdout lines and the stderr lines produced.  A blank line
(`!line.trim()`) is skipped before anything else (`src/index.js:43`); a
transport error prints `HTTP Error: ...` to stderr via `console.error` and
produces no stdout line (`src/index.js:105-107`). -/
def handleLine (parse : String → Option JsonVal) (http : String → HttpResult)
    (line : String) : List HttpPost × List StdoutLine × List StderrLine :=
  if isBlankLine line then ([], [], [])
  else
    let request := parse line
    match http line with
    | .err msg => ([mkPost line], [], [.httpError msg])
    | .ok data =>
        let (outs, errs) := respondEnd parse request data
        ([mkPost line], outs, errs)

/-- The whole run: each input line goes through its own pipeline instance,
with no cross-line state (spec §2); outputs are concatenated per line. -/
def runProxy (parse : String → Option JsonVal) (http : String → HttpResult) :
    List String → List HttpPost × List StdoutLine × List StderrLine
  | [] => ([], [], [])
  | line :: rest =>
      let (p, o, e) := handleLine parse http line
      let (ps, os, es) := runProxy parse http rest
      (p ++ ps, o ++ os, e ++ es)

/-!
## Concrete fixtures

Small concrete requests, responses and oracles used to evaluate the
pipeline at specific inputs.  The parse oracle maps a line's text to its
parsed value; the strings standing for request lines and response bodies
are opaque tags as far as the pipeline is concerned.
-/

/-- A `-32601` "Method not found" error object. -/
def exErrObj : JsonVal :=
  .obj [("code", .num (-32601)), ("message", .str "Method not found")]

/-- A JSON-RPC error response carrying `exErrObj`. -/
def exResp : JsonVal :=
  .obj [("jsonrpc", .str "2.0"), ("id", .null), ("error", exErrObj)]

/-- A successful response with no `error` field. -/
def exRespOk : JsonVal :=
  .obj [("jsonrpc", .str "2.0"), ("id", .num 7), ("result", .str "fine")]

/-- A `prompts/list` call with id 7. -/
def exReqPrompts : JsonVal :=
  .obj [("jsonrpc", .str "2.0"), ("id", .num 7), ("method", .str "prompts/list")]

/-- A `resources/list` call with id 8. -/
def exReqResources : JsonVal :=
  .obj [("jsonrpc", .str "2.0"), ("id", .num 8), ("method", .str "resources/list")]

/-- A notification: no `id` field. -/
def exReqNotif : JsonVal :=
  .obj [("jsonrpc", .str "2.0"), ("method", .str "notifications/initialized")]

/-- A call whose `id` is explicitly JSON `null`. -/
def exReqNullId : JsonVal :=
  .obj [("jsonrpc", .str "2.0"), ("id", .null), ("method", .str "prompts/list")]

/-- A `tools/call` request with id 3 (not an allow-listed method). -/
def exReqTools : JsonVal :=
  .obj [("jsonrpc", .str "2.0"), ("id", .num 3), ("method", .str "tools/call")]

/-- A non-allow-listed call whose `id` is explicitly JSON `null`. -/
def exReqToolsNull : JsonVal :=
  .obj [("jsonrpc", .str "2.0"), ("id", .null), ("method", .str "tools/call")]

/-- A concrete parse oracle for the fixture lines and bodies; every other
string (for example `"not json at all"`) fails to parse. -/
def exParse : String → Option JsonVal := fun s =>
  if s = "PROMPTS" then some exReqPrompts
  else if s = "RESOURCES" then some exReqResources
  else if s = "NOTIF" then some exReqNotif
  else if s = "NULLID" then some exReqNullId
  else if s = "TOOLS" then some exReqTools
  else if s = "TOOLSNULL" then some exReqToolsNull
  else if s = "ERRBODY" then some exResp
  else if s = "OKBODY" then some exRespOk
  else none

/-- A remote server that answers every request with the `-32601` error
body. -/
def exHttpErr32601 : String → HttpResult := fun _ => .ok "ERRBODY"

/-- A remote server that answers every request with the success body. -/
def exHttpOk : String → HttpResult := fun _ => .ok "OKBODY"

/-- A transport that fails every request (connection refused). -/
def exHttpDown : String → HttpResult := fun _ => .err "connect ECONNREFUSED"

/-- A remote server whose response body is not JSON. -/
def exHttpGarbled : String → HttpResult := fun _ => .ok "garbled response"

/-!
## Theorems
-/

/-- If the evaluated `request.id` is defined, the request value is truthy
(a falsy request yields `requestId = undefined`). -/
theorem truthy_of_requestId_some {r : JsonVal} {i : JsonVal}
    (hid : jsRequestId (some r) = some i) : truthy r = true := by
  by_cases h : truthy r = true
  · exact h
  · simp only [jsRequestId, Bool.not_eq_true] at hid h
    rw [h] at hid
    simp at hid

/-- Under a `-32601` error response, the handler's error test evaluates to
`true`. -/
theorem checkError_true {resp e : JsonVal}
    (herr : jsFieldE resp "error" = .ok (some e))
    (het : truthy e = true)
    (hcode : jsEqNum (jsField e "code") (-32601) = true) :
    checkError32601 resp = .ok true := by
  simp only [checkError32601, herr, jsTruthy, het, hcode, Bool.and_self]

/-- C1: for a response body parsing as JSON with an `error` object whose
`code` is `-32601`, when the request parsed with a defined `id` (so the
notification drop rule does not apply) and `method` exactly
`"prompts/list"`, the single emitted stdout line is the JSON object
`{jsonrpc: "2.0", id: <original id>, result: {prompts: []}}`; analogously
`resources/list` yields `{resources: []}`.  The emitted value is literally
that object, so in particular it is semantically equal to it. -/
theorem c1_empty_list_substitution
    (parse : String → Option JsonVal) (r i resp e : JsonVal) (data : String)
    (hresp : parse data = some resp)
    (herr : jsFieldE resp "error" = .ok (some e))
    (het : truthy e = true)
    (hcode : jsEqNum (jsField e "code") (-32601) = true)
    (hid : jsRequestId (some r) = some i) :
    (jsMethod (some r) = some (.str "prompts/list") →
      (respondEnd parse (some r) data).1 =
        [.json (emptyResult (some i) "prompts")]) ∧
    (jsMethod (some r) = some (.str "resources/list") →
      (respondEnd parse (some r) data).1 =
        [.json (emptyResult (some i) "resources")]) := by
  have htr : truthy r = true := truthy_of_requestId_some hid
  have hchk := checkError_true herr het hcode
  constructor <;> intro hm <;>
    simp [respondEnd, translateResponse, emitDecision, hresp, hchk, hid, hm,
      jsTruthy, htr, jsEqStr]

/-- C1 witness: the `prompts/list` fixture with id 7 against the `-32601`
error body yields exactly the substituted empty-prompts response, and the
`resources/list` fixture with id 8 yields the empty-resources response. -/
theorem c1_witness :
    (respondEnd exParse (some exReqPrompts) "ERRBODY").1 =
      [.json (emptyResult (some (.num 7)) "prompts")] ∧
    (respondEnd exParse (some exReqResources) "ERRBODY").1 =
      [.json (emptyResult (some (.num 8)) "resources")] :=
  ⟨(c1_empty_list_substitution exParse exReqPrompts (.num 7) exResp exErrObj
      "ERRBODY" rfl rfl rfl rfl rfl).1 rfl,
   (c1_empty_list_substitution exParse exReqResources (.num 8) exResp exErrObj
      "ERRBODY" rfl rfl rfl rfl rfl).2 rfl⟩

/-- C2: for a response body parsing as JSON with an `error` object whose
`code` is `-32601`, when the originating request parsed but its evaluated
`id` is undefined (a notification), no stdout line is produced and the
dropped method name is the only line written to the operator stream. -/
theorem c2_notification_suppression
    (parse : String → Option JsonVal) (r resp e : JsonVal) (data : String)
    (hresp : parse data = some resp)
    (herr : jsFieldE resp "error" = .ok (some e))
    (het : truthy e = true)
    (hcode : jsEqNum (jsField e "code") (-32601) = true)
    (hid : jsRequestId (some r) = none) :
    (respondEnd parse (some r) data).1 = [] ∧
    (respondEnd parse (some r) data).2 =
      [.droppedNotification (jsMethod (some r))] := by
  have hchk := checkError_true herr het hcode
  constructor <;>
    simp [respondEnd, translateResponse, emitDecision, hresp, hchk, hid]

/-- C2 witness: the id-less notification fixture against the `-32601`
error body produces no stdout line and reports the dropped method. -/
theorem c2_witness :
    (respondEnd exParse (some exReqNotif) "ERRBODY").1 = [] ∧
    (respondEnd exParse (some exReqNotif) "ERRBODY").2 =
      [.droppedNotification (jsMethod (some exReqNotif))] :=
  c2_notification_suppression exParse exReqNotif exResp exErrObj "ERRBODY"
    rfl rfl rfl rfl rfl

/-- C3: for a response body parsing as JSON in which no truthy `error`
field carries `code` `-32601` (no `error` field at all, a falsy one, or a
different code), the single stdout line is the raw response bytes
unchanged, whatever the originating request was. -/
theorem c3_passthrough_identity
    (parse : String → Option JsonVal) (request : Option JsonVal)
    (data : String) (resp : JsonVal)
    (hresp : parse data = some resp)
    (hno : errorIs32601 resp = false) :
    (respondEnd parse request data).1 = [.raw data] := by
  simp only [respondEnd, translateResponse, hresp]
  simp only [errorIs32601] at hno
  cases hchk : checkError32601 resp with
  | error m => simp [hchk, emitDecision]
  | ok b =>
      rw [hchk] at hno
      have hb : b = false := hno
      simp [hchk, hb, emitDecision]

/-- C3 witness: the success body with no `error` field is passed through
unchanged for the `prompts/list` request. -/
theorem c3_witness :
    (respondEnd exParse (some exReqPrompts) "OKBODY").1 = [.raw "OKBODY"] :=
  c3_passthrough_identity exParse (some exReqPrompts) "OKBODY" exRespOk
    rfl rfl

/-- A true handler error test means the test expression evaluated to
`true` without throwing. -/
theorem checkError_of_errorIs32601 {resp : JsonVal}
    (h : errorIs32601 resp = true) : checkError32601 resp = .ok true := by
  unfold errorIs32601 at h
  cases hchk : checkError32601 resp with
  | error m => rw [hchk] at h; exact absurd h (by simp)
  | ok b =>
      rw [hchk] at h
      have hb : b = true := h
      rw [hb]

/-- C4 counterexample: the line `"not json at all"` fails to parse, one
POST carries it as body, the remote answers with the `-32601` error body —
and the proxy emits nothing: the response is dropped by the notification
rule (the undefined request gives an undefined `requestId`), not passed
through as the claim states. -/
theorem c4_counterexample :
    (handleLine exParse exHttpErr32601 "not json at all").1 =
      [mkPost "not json at all"] ∧
    (handleLine exParse exHttpErr32601 "not json at all").2.1 = [] ∧
    (handleLine exParse exHttpErr32601 "not json at all").2.1 ≠
      [StdoutLine.raw "ERRBODY"] := by
  have h0 : (handleLine exParse exHttpErr32601 "not json at all").2.1 = [] :=
    rfl
  refine ⟨rfl, h0, ?_⟩
  rw [h0]
  simp

/-- C4 (amended): an input line that fails to parse as JSON is still sent
as the body of exactly one HTTP POST and the response is passed through
unchanged — unless the response parses as JSON with a truthy `error`
carrying `code == -32601`, in which case the notification drop rule fires
(the unparsed request leaves `requestId` undefined) and no output line is
emitted. -/
theorem c4_malformed_line_amended
    (parse : String → Option JsonVal) (http : String → HttpResult)
    (line data : String)
    (hblank : isBlankLine line = false)
    (hline : parse line = none)
    (hhttp : http line = .ok data) :
    (handleLine parse http line).1 = [mkPost line] ∧
    (parse data = none → (handleLine parse http line).2.1 = [.raw data]) ∧
    (∀ resp, parse data = some resp → errorIs32601 resp = false →
      (handleLine parse http line).2.1 = [.raw data]) ∧
    (∀ resp, parse data = some resp → errorIs32601 resp = true →
      (handleLine parse http line).2.1 = []) := by
  refine ⟨?_, ?_, ?_, ?_⟩
  · simp [handleLine, hblank, hhttp]
  · intro hdata
    simp [handleLine, hblank, hhttp, respondEnd, translateResponse, hdata,
      emitDecision]
  · intro resp hdata hno
    simp only [handleLine, hblank, if_false, ite_false, hhttp]
    simp only [respondEnd, translateResponse, hdata, hline]
    simp only [errorIs32601] at hno
    cases hchk : checkError32601 resp with
    | error m => simp [hchk, emitDecision]
    | ok b =>
        rw [hchk] at hno
        have hb : b = false := hno
        simp [hchk, hb, emitDecision]
  · intro resp hdata h32
    have hchk := checkError_of_errorIs32601 h32
    simp [handleLine, hblank, hhttp, respondEnd, translateResponse, hdata,
      hline, hchk, jsRequestId, emitDecision]

/-- C4 witness: instantiating the amended claim at the `"not json at all"`
line — against the erroring remote nothing is emitted; against the
succeeding remote the body is passed through unchanged. -/
theorem c4_witness :
    (handleLine exParse exHttpErr32601 "not json at all").2.1 = [] ∧
    (handleLine exParse exHttpOk "not json at all").2.1 =
      [StdoutLine.raw "OKBODY"] :=
  ⟨(c4_malformed_line_amended exParse exHttpErr32601 "not json at all"
      "ERRBODY" (by decide) rfl rfl).2.2.2 exResp rfl rfl,
   (c4_malformed_line_amended exParse exHttpOk "not json at all"
      "OKBODY" (by decide) rfl rfl).2.2.1 exRespOk rfl rfl⟩

/-- C5: when the response body fails to parse as JSON, the decision is
unconditionally pass-through — the raw bytes become the one stdout line —
the failure is reported on the operator stream, and the run continues with
the remaining input lines. -/
theorem c5_response_parse_failure
    (parse : String → Option JsonVal) (http : String → HttpResult)
    (line data : String) (rest : List String)
    (hblank : isBlankLine line = false)
    (hhttp : http line = .ok data)
    (hdata : parse data = none) :
    (handleLine parse http line).2.1 = [.raw data] ∧
    (handleLine parse http line).2.2 = [.parseError] ∧
    (runProxy parse http (line :: rest)).2.1 =
      .raw data :: (runProxy parse http rest).2.1 ∧
    (runProxy parse http (line :: rest)).2.2 =
      .parseError :: (runProxy parse http rest).2.2 := by
  have h : handleLine parse http line =
      ([mkPost line], [.raw data], [.parseError]) := by
    simp [handleLine, hblank, hhttp, respondEnd, translateResponse, hdata,
      emitDecision]
  refine ⟨by rw [h], by rw [h], ?_, ?_⟩ <;> simp [runProxy, h]

/-- C5 witness: a non-JSON response body to the `prompts/list` line is
passed through raw and reported, and the following line is still
processed. -/
theorem c5_witness :
    (handleLine exParse exHttpGarbled "PROMPTS").2.1 =
      [.raw "garbled response"] ∧
    (handleLine exParse exHttpGarbled "PROMPTS").2.2 = [.parseError] :=
  ⟨(c5_response_parse_failure exParse exHttpGarbled "PROMPTS"
      "garbled response" [] rfl rfl rfl).1,
   (c5_response_parse_failure exParse exHttpGarbled "PROMPTS"
      "garbled response" [] rfl rfl rfl).2.1⟩

/-- C6 counterexample: a line parsing to a truthy object with an `id` but
no `method` field gives `method = undefined` (the conditional takes the
`request.method` branch), not the `"unknown"` sentinel the claim states. -/
theorem c6_counterexample :
    jsMethod (some (.obj [("id", .num 1)])) ≠ some (.str "unknown") := by
  have h : jsMethod (some (.obj [("id", JsonVal.num 1)])) = none := rfl
  rw [h]
  simp

/-- C6 (amended): the `method` value defaults to the `"unknown"` sentinel
when the line failed to parse (the request is `undefined`) or parsed to a
falsy value; when the line parsed to a truthy object whose `method` field
is absent, the value is `undefined` instead (which equally matches no
allow-listed method). -/
theorem c6_unknown_sentinel_amended :
    jsMethod none = some (.str "unknown") ∧
    (∀ r, truthy r = false → jsMethod (some r) = some (.str "unknown")) ∧
    (∀ fields, List.lookup "method" fields = none →
      jsMethod (some (.obj fields)) = none) := by
  refine ⟨rfl, ?_, ?_⟩
  · intro r h
    simp [jsMethod, h]
  · intro fields h
    simp [jsMethod, truthy, jsField, h]

/-- C6 witness: the sentinel for an unparsed line and for a parsed `null`,
and the undefined method for a parsed object lacking the field. -/
theorem c6_witness :
    jsMethod none = some (.str "unknown") ∧
    jsMethod (some .null) = some (.str "unknown") ∧
    jsMethod (some (.obj [("id", .num 1)])) = none :=
  ⟨c6_unknown_sentinel_amended.1,
   c6_unknown_sentinel_amended.2.1 .null rfl,
   c6_unknown_sentinel_amended.2.2 [("id", .num 1)] rfl⟩

/-- C7: a run issues exactly one HTTP POST per non-blank input line, in
order, and every POST carries the line's bytes as body with
`Content-Type: application/json` and `Content-Length` equal to the line's
UTF-8 byte length. -/
theorem c7_one_post_per_line
    (parse : String → Option JsonVal) (http : String → HttpResult)
    (lines : List String) :
    (runProxy parse http lines).1 =
      (lines.filter (fun l => !isBlankLine l)).map mkPost ∧
    ∀ l, (mkPost l).verb = "POST" ∧
      (mkPost l).contentType = "application/json" ∧
      (mkPost l).contentLength = l.utf8ByteSize ∧
      (mkPost l).body = l := by
  constructor
  · induction lines with
    | nil => rfl
    | cons line rest ih =>
        simp only [runProxy, List.filter_cons]
        cases hb : isBlankLine line with
        | true => simpa [handleLine, hb] using ih
        | false =>
            cases hh : http line with
            | ok d => simpa [handleLine, hb, hh] using ih
            | err m => simpa [handleLine, hb, hh] using ih
  · intro l
    exact ⟨rfl, rfl, rfl, rfl⟩

/-- C8: every input line yields at most one stdout line — none for a blank
line, a transport error, or a `drop` decision; exactly one (the
substituted object or the raw body) for `substitute` and `passThrough`. -/
theorem c8_at_most_one_output_line
    (parse : String → Option JsonVal) (http : String → HttpResult)
    (line : String) :
    (handleLine parse http line).2.1.length ≤ 1 ∧
    (isBlankLine line = true → (handleLine parse http line).2.1 = []) ∧
    (∀ msg, http line = .err msg → (handleLine parse http line).2.1 = []) ∧
    (∀ data, http line = .ok data → isBlankLine line = false →
      ((translateResponse parse (parse line) data).1 = .drop →
        (handleLine parse http line).2.1 = []) ∧
      (∀ v, (translateResponse parse (parse line) data).1 = .substitute v →
        (handleLine parse http line).2.1 = [.json v]) ∧
      ((translateResponse parse (parse line) data).1 = .passThrough →
        (handleLine parse http line).2.1 = [.raw data])) := by
  refine ⟨?_, ?_, ?_, ?_⟩
  · cases hb : isBlankLine line with
    | true => simp [handleLine, hb]
    | false =>
        cases hh : http line with
        | err m => simp [handleLine, hb, hh]
        | ok d =>
            simp only [handleLine, hb, hh, Bool.false_eq_true, if_false,
              respondEnd]
            cases (translateResponse parse (parse line) d).1 <;>
              simp [emitDecision]
  · intro hb
    simp [handleLine, hb]
  · intro msg hh
    cases hb : isBlankLine line with
    | true => simp [handleLine, hb]
    | false => simp [handleLine, hb, hh]
  · intro data hh hb
    refine ⟨?_, ?_, ?_⟩ <;>
      first
        | (intro hdec
           simp [handleLine, hb, hh, respondEnd, hdec, emitDecision])
        | (intro v hdec
           simp [handleLine, hb, hh, respondEnd, hdec, emitDecision])

/-- C8 witness: the notification fixture hits the drop case with no stdout
line. -/
theorem c8_witness :
    (handleLine exParse exHttpErr32601 "NOTIF").2.1 = [] :=
  ((c8_at_most_one_output_line exParse exHttpErr32601 "NOTIF").2.2.2
    "ERRBODY" rfl rfl).1 rfl

/-- C9: a transport-level failure for one line is reported on the operator
stream, writes nothing to stdout, and leaves the processing of the
remaining lines unchanged. -/
theorem c9_transport_error
    (parse : String → Option JsonVal) (http : String → HttpResult)
    (line msg : String) (rest : List String)
    (hblank : isBlankLine line = false)
    (herr : http line = .err msg) :
    (handleLine parse http line).2.1 = [] ∧
    (handleLine parse http line).2.2 = [.httpError msg] ∧
    (runProxy parse http (line :: rest)).2.1 = (runProxy parse http rest).2.1 ∧
    (runProxy parse http (line :: rest)).2.2 =
      .httpError msg :: (runProxy parse http rest).2.2 := by
  have h : handleLine parse http line =
      ([mkPost line], [], [.httpError msg]) := by
    simp [handleLine, hblank, herr]
  refine ⟨by rw [h], by rw [h], ?_, ?_⟩ <;> simp [runProxy, h]

/-- C9 witness: the downed transport answering the `prompts/list` line is
reported and produces no stdout line. -/
theorem c9_witness :
    (handleLine exParse exHttpDown "PROMPTS").2.1 = [] ∧
    (handleLine exParse exHttpDown "PROMPTS").2.2 =
      [.httpError "connect ECONNREFUSED"] :=
  ⟨(c9_transport_error exParse exHttpDown "PROMPTS" "connect ECONNREFUSED"
      [] rfl rfl).1,
   (c9_transport_error exParse exHttpDown "PROMPTS" "connect ECONNREFUSED"
      [] rfl rfl).2.1⟩

/-- C10: a request whose `id` is explicitly JSON `null` is a call, not a
notification: a `-32601` error response to it is never dropped; it is
substituted — carrying `id null` — when the method is allow-listed, and
passed through unchanged otherwise. -/
theorem c10_null_id_is_call
    (parse : String → Option JsonVal) (r resp e : JsonVal) (data : String)
    (hresp : parse data = some resp)
    (herr : jsFieldE resp "error" = .ok (some e))
    (het : truthy e = true)
    (hcode : jsEqNum (jsField e "code") (-32601) = true)
    (hid : jsRequestId (some r) = some .null) :
    (translateResponse parse (some r) data).1 ≠ .drop ∧
    (jsMethod (some r) = some (.str "prompts/list") →
      (respondEnd parse (some r) data).1 =
        [.json (emptyResult (some .null) "prompts")]) ∧
    (jsMethod (some r) = some (.str "resources/list") →
      (respondEnd parse (some r) data).1 =
        [.json (emptyResult (some .null) "resources")]) ∧
    (jsEqStr (jsMethod (some r)) "prompts/list" = false →
      jsEqStr (jsMethod (some r)) "resources/list" = false →
      (respondEnd parse (some r) data).1 = [.raw data]) := by
  have htr : truthy r = true := truthy_of_requestId_some hid
  have hchk := checkError_true herr het hcode
  refine ⟨?_, ?_, ?_, ?_⟩
  · simp only [translateResponse, hresp, hchk, hid, jsTruthy, htr,
      Option.isNone_some, Bool.and_false, if_false, Bool.and_true]
    cases hp : jsEqStr (jsMethod (some r)) "prompts/list" <;>
      cases hq : jsEqStr (jsMethod (some r)) "resources/list" <;>
      simp [hp, hq]
  · intro hm
    simp [respondEnd, translateResponse, emitDecision, hresp, hchk, hid, hm,
      jsTruthy, htr, jsEqStr]
  · intro hm
    simp [respondEnd, translateResponse, emitDecision, hresp, hchk, hid, hm,
      jsTruthy, htr, jsEqStr]
  · intro hp hq
    simp [respondEnd, translateResponse, emitDecision, hresp, hchk, hid,
      jsTruthy, htr, hp, hq]

/-- C10 witness: a `prompts/list` call with `id null` is substituted with
`id null`, and a `tools/call` with `id null` is passed through, both under
the `-32601` error body. -/
theorem c10_witness :
    (respondEnd exParse (some exReqNullId) "ERRBODY").1 =
      [.json (emptyResult (some .null) "prompts")] ∧
    (respondEnd exParse (some exReqToolsNull) "ERRBODY").1 =
      [.raw "ERRBODY"] :=
  ⟨(c10_null_id_is_call exParse exReqNullId exResp exErrObj "ERRBODY"
      rfl rfl rfl rfl rfl).2.1 rfl,
   (c10_null_id_is_call exParse exReqToolsNull exResp exErrObj "ERRBODY"
      rfl rfl rfl rfl rfl).2.2.2 rfl rfl⟩

end McpProxy
